import Mathlib

/-!
Shallow embedding of the session / image-delivery core of
src/telegram_bot.py, together with theorems settling the claims about it.

Transport messages are abstracted to an inductive type of message texts;
the record store is a function from a lookup counter and a key to an
optional record, so successive lookups may observe different store states.
-/

namespace TelegramBot

/-- Image entries as they occur in a stored record: a bare URL string, or a
document carrying a url field and an optional date field. -/
inductive ImageEntry where
  | str (u : String)
  | dict (url : String) (date : Option String)
deriving DecidableEq, Repr

/-- A user record as returned by the store (relevant fields of the Mongo
document). -/
structure Record where
  mongoId : String
  access_key : String
  name : Option String
  image_links : List ImageEntry
deriving DecidableEq, Repr

/-- The per-chat `context.user_data` dictionary; `none` models an absent key. -/
structure UserData where
  activation_key : Option String
  user_id : Option String
  user_name : Option String
  user_data : Option Record
  image_message_ids : Option (List Nat)
  last_updated : Option Nat
deriving DecidableEq, Repr

/-- `context.user_data.clear()`: the empty dictionary. -/
def emptyUD : UserData :=
  { activation_key := none, user_id := none, user_name := none,
    user_data := none, image_message_ids := none, last_updated := none }

/-- Texts of transport messages produced by the handlers. -/
inductive Msg where
  | sessionExpired
  | keyNoLongerValid
  | noImagesFound
  | noImagesToday
  | sendingStatus (n : Nat)
  | imageCaption (i total : Nat)
  | fetchFailed (i : Nat)
  | allDelivered
  | foundUpdates
  | upToDate
  | loggedOut
  | welcome (name : String)
  | invalidKey
deriving DecidableEq, Repr

/-- Transport operations issued by the handlers, in order. -/
inductive TEvent where
  | editText (m : Msg)
  | deleteMsg (msgId : Nat)
  | sendPhoto (msgId : Nat) (url : String) (caption : Msg)
  | sendText (msgId : Nat) (m : Msg)
deriving DecidableEq, Repr

/-- Result of the `get_images` handler. -/
inductive DeliverResult where
  | sessionExpired
  | keyRevoked
  | noImagesField
  | noImagesToday
  | delivered (sent errors : Nat)
deriving DecidableEq, Repr

/-- Result of the `refresh_images` handler. -/
inductive RefreshResult where
  | sessionExpired
  | keyRevoked
  | changed (inner : DeliverResult)
  | unchanged
deriving DecidableEq, Repr

/-- Conversation-handler return value of `validate_key`. -/
inductive ConvState where
  | waitingForKey
  | convEnd
deriving DecidableEq, Repr

/-- The environment the handlers run in: `store n k` is the answer of the
n-th `collection.find_one` call for key `k` (so different lookups may see
different store contents); `fetchOk u` tells whether downloading and sending
the image at `u` succeeds; `today` is the current date string; `now` the
current time; `queryMsgId` the id of the callback-query message being
edited. -/
structure Env where
  store : Nat → String → Option Record
  fetchOk : String → Bool
  today : String
  now : Nat
  queryMsgId : Nat

/-- Mutable state threaded through a handler run: the user-data dictionary,
the number of store lookups performed so far, and the next fresh transport
message id. -/
structure St where
  ud : UserData
  lookups : Nat
  nextMsgId : Nat
deriving DecidableEq, Repr

/-- The `today_images` accumulation loop of `get_images`
(src/telegram_bot.py lines 175-181): dict entries with a date field are
kept iff the date equals today; bare strings are always kept; anything
else is skipped. -/
def todayLoop (today : String) : List ImageEntry → List String → List String
  | [], acc => acc
  | img :: rest, acc =>
    match img with
    | ImageEntry.dict u (some d) =>
        if d = today then todayLoop today rest (acc ++ [u])
        else todayLoop today rest acc
    | ImageEntry.dict _ none => todayLoop today rest acc
    | ImageEntry.str u => todayLoop today rest (acc ++ [u])

/-- The image-set resolver: the filter of `get_images` run on a record
image-link list with an empty accumulator. -/
def resolveToday (today : String) (links : List ImageEntry) : List String :=
  todayLoop today links []

/-- Spec-side reference definition of the resolver (spec section 4.2), used
for the refinement statement: include bare URLs unconditionally and dated
entries iff their date equals today, in original order. -/
def specResolveToday (today : String) (links : List ImageEntry) : List String :=
  links.filterMap fun e =>
    match e with
    | ImageEntry.str u => some u
    | ImageEntry.dict u d => if d = some today then some u else none

/-- `clear_previous_images` (lines 127-137): if the `image_message_ids` key
is present and the list non-empty, issue a best-effort delete for each id
and reset the list to empty; otherwise do nothing. -/
def clear_previous_images (ud : UserData) : UserData × List TEvent :=
  match ud.image_message_ids with
  | some ids =>
      if ids = [] then (ud, [])
      else ({ ud with image_message_ids := some [] }, ids.map TEvent.deleteMsg)
  | none => (ud, [])

/-- Output of the send loop of `get_images` (lines 199-220): the pending
message-id list, the transport events, the success and error counts, and
the next fresh message id. -/
structure LoopOut where
  ids : List Nat
  events : List TEvent
  sent : Nat
  errors : Nat
  nextMsgId : Nat
deriving DecidableEq, Repr

/-- The send loop of `get_images`: for the i-th url (0-based), on fetch and
send success append the photo message id, otherwise send a substitute error
text and append that message id; the loop never aborts. -/
def sendLoop (fetchOk : String → Bool) (total : Nat) :
    List String → Nat → Nat → LoopOut
  | [], _, next => { ids := [], events := [], sent := 0, errors := 0, nextMsgId := next }
  | url :: rest, i, next =>
    if fetchOk url then
      let r := sendLoop fetchOk total rest (i + 1) (next + 1)
      { ids := next :: r.ids,
        events := TEvent.sendPhoto next url (Msg.imageCaption (i + 1) total) :: r.events,
        sent := r.sent + 1, errors := r.errors, nextMsgId := r.nextMsgId }
    else
      let r := sendLoop fetchOk total rest (i + 1) (next + 1)
      { ids := next :: r.ids,
        events := TEvent.sendText next (Msg.fetchFailed (i + 1)) :: r.events,
        sent := r.sent, errors := r.errors + 1, nextMsgId := r.nextMsgId }

/-- Output of a `get_images` run. -/
structure GiOut where
  st : St
  events : List TEvent
  result : DeliverResult
deriving DecidableEq, Repr

/-- `get_images` (lines 139-238): session check, record re-fetch, resolve
today image set, status edit, cleanup pass, send loop, store pending ids,
delete status message and send the control message. It never writes
`user_data` or `last_updated`. -/
def get_images (env : Env) (s : St) : GiOut :=
  match s.ud.activation_key with
  | none =>
      { st := s, events := [TEvent.editText Msg.sessionExpired],
        result := DeliverResult.sessionExpired }
  | some key =>
    match env.store s.lookups key with
    | none =>
        { st := { s with lookups := s.lookups + 1 },
          events := [TEvent.editText Msg.keyNoLongerValid],
          result := DeliverResult.keyRevoked }
    | some doc =>
      let s1 : St := { s with lookups := s.lookups + 1 }
      if doc.image_links = [] then
        { st := s1, events := [TEvent.editText Msg.noImagesFound],
          result := DeliverResult.noImagesField }
      else
        let today_images := resolveToday env.today doc.image_links
        if today_images = [] then
          { st := s1, events := [TEvent.editText Msg.noImagesToday],
            result := DeliverResult.noImagesToday }
        else
          let cp := clear_previous_images s1.ud
          let loop := sendLoop env.fetchOk today_images.length today_images 0 s1.nextMsgId
          { st := { s1 with
                      ud := { cp.1 with image_message_ids := some loop.ids },
                      nextMsgId := loop.nextMsgId + 1 },
            events := TEvent.editText (Msg.sendingStatus today_images.length) ::
              cp.2 ++ loop.events ++
              [TEvent.deleteMsg env.queryMsgId,
               TEvent.sendText loop.nextMsgId Msg.allDelivered],
            result := DeliverResult.delivered loop.sent loop.errors }

/-- Output of a `refresh_images` run. -/
structure RfOut where
  st : St
  events : List TEvent
  result : RefreshResult
deriving DecidableEq, Repr

/-- `refresh_images` (lines 240-288): session check, record re-fetch,
unconditional `user_data` update, length-or-inequality comparison of the
image-link lists; on change, edit, cleanup, then call `get_images` (which
performs its own store lookup); otherwise edit the up-to-date message. -/
def refresh_images (env : Env) (s : St) : RfOut :=
  match s.ud.activation_key with
  | none =>
      { st := s, events := [TEvent.editText Msg.sessionExpired],
        result := RefreshResult.sessionExpired }
  | some key =>
    match env.store s.lookups key with
    | none =>
        { st := { s with lookups := s.lookups + 1 },
          events := [TEvent.editText Msg.keyNoLongerValid],
          result := RefreshResult.keyRevoked }
    | some doc =>
      let old_images := (s.ud.user_data.map Record.image_links).getD []
      let s2 : St := { s with ud := { s.ud with user_data := some doc },
                              lookups := s.lookups + 1 }
      let new_images := doc.image_links
      if new_images.length ≠ old_images.length ∨ new_images ≠ old_images then
        let cp := clear_previous_images s2.ud
        let gi := get_images env { s2 with ud := cp.1 }
        { st := gi.st,
          events := TEvent.editText Msg.foundUpdates :: cp.2 ++ gi.events,
          result := RefreshResult.changed gi.result }
      else
        { st := s2, events := [TEvent.editText Msg.upToDate],
          result := RefreshResult.unchanged }

/-- `end_session` (lines 112-125), the logout button: clear all user data
FIRST, then run the cleanup pass (which therefore sees no stored ids), then
edit the logged-out confirmation. -/
def end_session (s : St) : St × List TEvent :=
  let ud1 := emptyUD
  let cp := clear_previous_images ud1
  ({ s with ud := cp.1 }, cp.2 ++ [TEvent.editText Msg.loggedOut])

/-- `logout_command` (lines 301-311): same order as `end_session` but the
confirmation is a fresh sent message. -/
def logout_command (s : St) : St × List TEvent :=
  let ud1 := emptyUD
  let cp := clear_previous_images ud1
  ({ s with ud := cp.1, nextMsgId := s.nextMsgId + 1 },
   cp.2 ++ [TEvent.sendText s.nextMsgId Msg.loggedOut])

/-- Python `str.strip()`: drop whitespace from both ends, modelled on the
character list of the string (kernel-computable, unlike `String.trim`). -/
def pyStrip (s : String) : String :=
  String.mk
    (((s.data.dropWhile Char.isWhitespace).reverse.dropWhile
        Char.isWhitespace).reverse)

/-- `validate_key` (lines 63-98): strip the input, store it under
`activation_key` BEFORE the lookup, then look the key up; on success fill
the session fields and end the conversation, on failure reply and stay in
the waiting state. -/
def validate_key (env : Env) (s : St) (rawInput : String) :
    St × List TEvent × ConvState :=
  let activation_key := pyStrip rawInput
  let ud1 := { s.ud with activation_key := some activation_key }
  match env.store s.lookups activation_key with
  | some doc =>
      let ud2 := { ud1 with
                     user_id := some doc.mongoId,
                     user_name := some (doc.name.getD "User"),
                     user_data := some doc,
                     image_message_ids := some ([] : List Nat),
                     last_updated := some env.now }
      ({ s with ud := ud2, lookups := s.lookups + 1, nextMsgId := s.nextMsgId + 1 },
       [TEvent.sendText s.nextMsgId (Msg.welcome (doc.name.getD "User"))],
       ConvState.convEnd)
  | none =>
      ({ s with ud := ud1, lookups := s.lookups + 1, nextMsgId := s.nextMsgId + 1 },
       [TEvent.sendText s.nextMsgId Msg.invalidKey],
       ConvState.waitingForKey)

/-- Whether an event list contains a transport delete call. -/
def hasDelete (es : List TEvent) : Bool :=
  es.any fun e =>
    match e with
    | TEvent.deleteMsg _ => true
    | _ => false

/-- Whether an event list contains a transport send call (photo or text). -/
def hasSend (es : List TEvent) : Bool :=
  es.any fun e =>
    match e with
    | TEvent.sendPhoto _ _ _ => true
    | TEvent.sendText _ _ => true
    | _ => false

/-- Whether an event list contains a photo send of the given url. -/
def sendsPhotoUrl (u : String) (es : List TEvent) : Bool :=
  es.any fun e =>
    match e with
    | TEvent.sendPhoto _ v _ => v = u
    | _ => false

/-- Fixture: record seen by the first lookup of a refresh run. -/
def recC1first : Record :=
  { mongoId := "1", access_key := "K1", name := some "N",
    image_links := [ImageEntry.str "a"] }

/-- Fixture: record seen by the second lookup of the same refresh run. -/
def recC1second : Record :=
  { mongoId := "1", access_key := "K1", name := some "N",
    image_links := [ImageEntry.str "b"] }

/-- Fixture: the cached record before the refresh run. -/
def recC1cached : Record :=
  { mongoId := "1", access_key := "K1", name := some "N", image_links := [] }

/-- Fixture: a store whose contents change between the first and second
lookup. -/
def envC1 : Env :=
  { store := fun n k =>
      if k = "K1" then (if n = 0 then some recC1first else some recC1second)
      else none,
    fetchOk := fun _ => true, today := "2024-01-01", now := 0, queryMsgId := 99 }

/-- Fixture: authenticated session caching `recC1cached`. -/
def udC1 : UserData :=
  { emptyUD with activation_key := some "K1", user_data := some recC1cached, image_message_ids := some [] }

/-- Fixture state wrapping `udC1`. -/
def sC1 : St := { ud := udC1, lookups := 0, nextMsgId := 10 }

/-- Fixture: authenticated session with two delivered message ids. -/
def udC2 : UserData :=
  { emptyUD with activation_key := some "K2", user_data := some recC1cached, image_message_ids := some [101, 102], last_updated := some 1 }

/-- Fixture state wrapping `udC2`. -/
def sC2 : St := { ud := udC2, lookups := 0, nextMsgId := 50 }

/-- Fixture: a store that answers every lookup with not-found. -/
def envC3 : Env :=
  { store := fun _ _ => none, fetchOk := fun _ => true,
    today := "2024-01-01", now := 0, queryMsgId := 0 }

/-- Fixture: a fresh empty session awaiting a key. -/
def sC3 : St := { ud := emptyUD, lookups := 0, nextMsgId := 0 }

/-- Fixture: the cached record of a session before a deliver run. -/
def recC4old : Record :=
  { mongoId := "4", access_key := "K4", name := some "O",
    image_links := [ImageEntry.str "old"] }

/-- Fixture: the record the store holds at deliver time. -/
def recC4new : Record :=
  { mongoId := "4", access_key := "K4", name := some "O",
    image_links := [ImageEntry.str "new1"] }

/-- Fixture: store holding `recC4new` under key K4; current time 5. -/
def envC4 : Env :=
  { store := fun _ k => if k = "K4" then some recC4new else none,
    fetchOk := fun _ => true, today := "2024-01-01", now := 5, queryMsgId := 42 }

/-- Fixture: session caching `recC4old` with `last_updated` 0. -/
def udC4 : UserData :=
  { emptyUD with activation_key := some "K4", user_data := some recC4old, image_message_ids := some [], last_updated := some 0 }

/-- Fixture state wrapping `udC4`. -/
def sC4 : St := { ud := udC4, lookups := 0, nextMsgId := 20 }

/-- Fixture: cached record with name A. -/
def recC5old : Record :=
  { mongoId := "5", access_key := "K5", name := some "A",
    image_links := [ImageEntry.str "u"] }

/-- Fixture: fresh record with the same image links but name B. -/
def recC5new : Record :=
  { mongoId := "5", access_key := "K5", name := some "B",
    image_links := [ImageEntry.str "u"] }

/-- Fixture: store holding `recC5new` under key K5. -/
def envC5 : Env :=
  { store := fun _ k => if k = "K5" then some recC5new else none,
    fetchOk := fun _ => true, today := "2024-01-01", now := 0, queryMsgId := 7 }

/-- Fixture: session caching `recC5old` with one delivered id. -/
def udC5 : UserData :=
  { emptyUD with activation_key := some "K5", user_data := some recC5old, image_message_ids := some [3] }

/-- Fixture state wrapping `udC5`. -/
def sC5 : St := { ud := udC5, lookups := 0, nextMsgId := 0 }

/-- Fixture: record with three bare-url image links. -/
def recC7 : Record :=
  { mongoId := "7", access_key := "K7", name := some "N",
    image_links := [ImageEntry.str "u1", ImageEntry.str "u2", ImageEntry.str "u3"] }

/-- Fixture: store holding `recC7`; fetching url u2 fails, the others
succeed. -/
def envC7 : Env :=
  { store := fun _ k => if k = "K7" then some recC7 else none,
    fetchOk := fun u => u != "u2", today := "2024-01-01", now := 0,
    queryMsgId := 5 }

/-- Fixture: authenticated session for the three-image deliver run. -/
def udC7 : UserData := { emptyUD with activation_key := some "K7" }

/-- Fixture state wrapping `udC7`. -/
def sC7 : St := { ud := udC7, lookups := 0, nextMsgId := 10 }

/-- Fixture: store where every key lookup fails (revoked key). -/
def envC9 : Env :=
  { store := fun _ _ => none, fetchOk := fun _ => true,
    today := "2024-01-01", now := 0, queryMsgId := 9 }

/-- Fixture: authenticated session whose key no longer resolves. -/
def udC9 : UserData :=
  { emptyUD with activation_key := some "K9", user_data := some recC5old, image_message_ids := some [7] }

/-- Fixture state wrapping `udC9`. -/
def sC9 : St := { ud := udC9, lookups := 0, nextMsgId := 0 }

theorem todayLoop_acc (today : String) :
    ∀ (links : List ImageEntry) (acc : List String),
      todayLoop today links acc = acc ++ todayLoop today links [] := by
  intro links
  induction links with
  | nil => intro acc; simp [todayLoop]
  | cons img rest ih =>
    intro acc
    cases img with
    | str u =>
        simp only [todayLoop]
        rw [ih (acc ++ [u]), ih ([] ++ [u])]
        simp
    | dict u d =>
        cases d with
        | none => simpa only [todayLoop] using ih acc
        | some dd =>
            simp only [todayLoop]
            by_cases h : dd = today
            · rw [if_pos h, if_pos h, ih (acc ++ [u]), ih ([] ++ [u])]
              simp
            · rw [if_neg h, if_neg h]
              exact ih acc

theorem resolveToday_eq_spec (today : String) :
    ∀ links : List ImageEntry,
      resolveToday today links = specResolveToday today links := by
  intro links
  induction links with
  | nil => rfl
  | cons img rest ih =>
    have ih2 : todayLoop today rest [] = specResolveToday today rest := ih
    cases img with
    | str u =>
        show todayLoop today (ImageEntry.str u :: rest) [] = _
        simp only [todayLoop, List.nil_append]
        rw [todayLoop_acc today rest [u], ih2]
        simp [specResolveToday, List.filterMap_cons]
    | dict u d =>
        cases d with
        | none =>
            show todayLoop today (ImageEntry.dict u none :: rest) [] = _
            simp only [todayLoop]
            rw [ih2]
            simp [specResolveToday, List.filterMap_cons]
        | some dd =>
            show todayLoop today (ImageEntry.dict u (some dd) :: rest) [] = _
            simp only [todayLoop]
            by_cases h : dd = today
            · rw [if_pos h, List.nil_append, todayLoop_acc today rest [u], ih2]
              simp [specResolveToday, List.filterMap_cons, h]
            · rw [if_neg h, ih2]
              simp [specResolveToday, List.filterMap_cons, h]

theorem sendLoop_ids (f : String → Bool) (total : Nat) :
    ∀ (urls : List String) (i next : Nat),
      (sendLoop f total urls i next).ids = List.range' next urls.length := by
  intro urls
  induction urls with
  | nil => intro i next; simp [sendLoop, List.range']
  | cons u rest ih =>
    intro i next
    cases h : f u <;> simp [sendLoop, h, ih, List.range']

theorem sendLoop_sent (f : String → Bool) (total : Nat) :
    ∀ (urls : List String) (i next : Nat),
      (sendLoop f total urls i next).sent = (urls.filter f).length := by
  intro urls
  induction urls with
  | nil => intro i next; simp [sendLoop]
  | cons u rest ih =>
    intro i next
    cases h : f u <;> simp [sendLoop, h, ih, List.filter_cons]

theorem sendLoop_errors (f : String → Bool) (total : Nat) :
    ∀ (urls : List String) (i next : Nat),
      (sendLoop f total urls i next).errors =
        (urls.filter fun u => !(f u)).length := by
  intro urls
  induction urls with
  | nil => intro i next; simp [sendLoop]
  | cons u rest ih =>
    intro i next
    cases h : f u <;> simp [sendLoop, h, ih, List.filter_cons]

theorem filter_bool_split_length (f : String → Bool) :
    ∀ urls : List String,
      (urls.filter f).length + (urls.filter fun u => !(f u)).length =
        urls.length := by
  intro urls
  induction urls with
  | nil => rfl
  | cons u rest ih =>
    cases h : f u <;> simp [List.filter_cons, h] <;> omega

theorem cpi_fst_fields (ud : UserData) :
    (clear_previous_images ud).1.activation_key = ud.activation_key ∧
    (clear_previous_images ud).1.user_id = ud.user_id ∧
    (clear_previous_images ud).1.user_name = ud.user_name ∧
    (clear_previous_images ud).1.user_data = ud.user_data ∧
    (clear_previous_images ud).1.last_updated = ud.last_updated := by
  unfold clear_previous_images
  rcases hmi : ud.image_message_ids with _ | ids <;> simp [hmi]
  split <;> simp

theorem get_images_frame (env : Env) (s : St) :
    (get_images env s).st.ud.user_data = s.ud.user_data ∧
    (get_images env s).st.ud.last_updated = s.ud.last_updated ∧
    (get_images env s).st.ud.activation_key = s.ud.activation_key := by
  unfold get_images
  rcases hak : s.ud.activation_key with _ | k
  · simp [hak]
  · rcases hst : env.store s.lookups k with _ | doc
    · simp [hak, hst]
    · by_cases h1 : doc.image_links = []
      · simp [hak, hst, h1]
      · by_cases h2 : resolveToday env.today doc.image_links = []
        · simp [hak, hst, h1, h2]
        · have hc := cpi_fst_fields s.ud
          simp [hak, hst, h1, h2, hc.2.2.2.1, hc.2.2.2.2, hc.1]

theorem get_images_lookups_of_key (env : Env) (s : St) (k : String)
    (hak : s.ud.activation_key = some k) :
    (get_images env s).st.lookups = s.lookups + 1 := by
  unfold get_images
  rcases hst : env.store s.lookups k with _ | doc
  · simp [hak, hst]
  · by_cases h1 : doc.image_links = []
    · simp [hak, hst, h1]
    · by_cases h2 : resolveToday env.today doc.image_links = []
      · simp [hak, hst, h1, h2]
      · simp [hak, hst, h1, h2]

theorem get_images_delivered_eq (env : Env) (s : St) (k : String) (doc : Record)
    (hak : s.ud.activation_key = some k)
    (hst : env.store s.lookups k = some doc)
    (hne : resolveToday env.today doc.image_links ≠ []) :
    get_images env s =
      { st := { ud := { (clear_previous_images s.ud).1 with
                  image_message_ids := some (sendLoop env.fetchOk
                    (resolveToday env.today doc.image_links).length
                    (resolveToday env.today doc.image_links) 0 s.nextMsgId).ids },
                lookups := s.lookups + 1,
                nextMsgId := (sendLoop env.fetchOk
                  (resolveToday env.today doc.image_links).length
                  (resolveToday env.today doc.image_links) 0 s.nextMsgId).nextMsgId + 1 },
        events := TEvent.editText
            (Msg.sendingStatus (resolveToday env.today doc.image_links).length) ::
          (clear_previous_images s.ud).2 ++
          (sendLoop env.fetchOk (resolveToday env.today doc.image_links).length
            (resolveToday env.today doc.image_links) 0 s.nextMsgId).events ++
          [TEvent.deleteMsg env.queryMsgId,
           TEvent.sendText (sendLoop env.fetchOk
             (resolveToday env.today doc.image_links).length
             (resolveToday env.today doc.image_links) 0 s.nextMsgId).nextMsgId
             Msg.allDelivered],
        result := DeliverResult.delivered
          (sendLoop env.fetchOk (resolveToday env.today doc.image_links).length
            (resolveToday env.today doc.image_links) 0 s.nextMsgId).sent
          (sendLoop env.fetchOk (resolveToday env.today doc.image_links).length
            (resolveToday env.today doc.image_links) 0 s.nextMsgId).errors } := by
  have hl : doc.image_links ≠ [] := by
    intro h
    exact hne (by rw [h]; rfl)
  unfold get_images
  rw [hak]
  simp only []
  rw [hst]
  simp only [if_neg hl, if_neg hne]

theorem refresh_unchanged_eq (env : Env) (s : St) (k : String) (doc : Record)
    (hak : s.ud.activation_key = some k)
    (hst : env.store s.lookups k = some doc)
    (heq : doc.image_links = (s.ud.user_data.map Record.image_links).getD []) :
    refresh_images env s =
      { st := { s with ud := { s.ud with user_data := some doc },
                       lookups := s.lookups + 1 },
        events := [TEvent.editText Msg.upToDate],
        result := RefreshResult.unchanged } := by
  unfold refresh_images
  rw [hak]
  simp only []
  rw [hst]
  simp only [heq]
  rw [if_neg]
  simp

theorem refresh_changed_eq (env : Env) (s : St) (k : String) (doc : Record)
    (hak : s.ud.activation_key = some k)
    (hst : env.store s.lookups k = some doc)
    (hne : doc.image_links ≠ (s.ud.user_data.map Record.image_links).getD []) :
    refresh_images env s =
      { st := (get_images env
          { s with ud := (clear_previous_images
                { s.ud with user_data := some doc }).1,
                   lookups := s.lookups + 1 }).st,
        events := TEvent.editText Msg.foundUpdates ::
          (clear_previous_images { s.ud with user_data := some doc }).2 ++
          (get_images env
            { s with ud := (clear_previous_images
                  { s.ud with user_data := some doc }).1,
                     lookups := s.lookups + 1 }).events,
        result := RefreshResult.changed (get_images env
          { s with ud := (clear_previous_images
                { s.ud with user_data := some doc }).1,
                   lookups := s.lookups + 1 }).result } := by
  have hcond : doc.image_links.length ≠
        ((s.ud.user_data.map Record.image_links).getD []).length ∨
      doc.image_links ≠ (s.ud.user_data.map Record.image_links).getD [] :=
    Or.inr hne
  unfold refresh_images
  rw [hak]
  simp only []
  rw [hst]
  simp only [if_pos hcond]

/-- C8: for every record and every current day, the resolver returns exactly
the urls of the entries that are bare strings (unconditionally) or dated
entries whose date equals today, preserving the original entry order (it
coincides with the spec-side filter `specResolveToday`); an entry-free list
gives the empty sequence, not an error; and the spec scenario record behaves
as stated on 2024-01-01 and 2024-01-02. -/
theorem C8_resolveToday_refines_spec :
    (∀ (today : String) (links : List ImageEntry),
        resolveToday today links = specResolveToday today links) ∧
    resolveToday "2024-01-01"
        [ImageEntry.str "http://a/1.png",
         ImageEntry.dict "http://a/2.png" (some "2024-01-01")] =
      ["http://a/1.png", "http://a/2.png"] ∧
    resolveToday "2024-01-02"
        [ImageEntry.str "http://a/1.png",
         ImageEntry.dict "http://a/2.png" (some "2024-01-01")] =
      ["http://a/1.png"] ∧
    (∀ today : String, resolveToday today [] = []) := by
  refine ⟨fun t l => resolveToday_eq_spec t l, by decide, by decide, fun t => rfl⟩

/-- C10: a dict image entry without a date field is silently dropped by the
today-filter: the resolved url sequence is the same as if the entry were
absent, so such an entry is neither delivered nor counted nor reported as an
error. -/
theorem C10_undated_dict_entry_dropped (today u : String)
    (xs ys : List ImageEntry) :
    resolveToday today (xs ++ ImageEntry.dict u none :: ys) =
      resolveToday today (xs ++ ys) := by
  rw [resolveToday_eq_spec, resolveToday_eq_spec]
  simp [specResolveToday, List.filterMap_append, List.filterMap_cons]

/-- C6: a refresh whose freshly fetched image-link sequence equals the
cached one performs no transport delete and no transport send (photo or
text) during the call. -/
theorem C6_refresh_unchanged_no_deletes_or_sends (env : Env) (s : St)
    (k : String) (doc : Record)
    (hak : s.ud.activation_key = some k)
    (hst : env.store s.lookups k = some doc)
    (heq : doc.image_links = (s.ud.user_data.map Record.image_links).getD []) :
    hasDelete (refresh_images env s).events = false ∧
    hasSend (refresh_images env s).events = false := by
  rw [refresh_unchanged_eq env s k doc hak hst heq]
  exact ⟨rfl, rfl⟩

/-- C6 witness: concrete unchanged refresh with a delivered id cached. -/
theorem C6_witness :
    hasDelete (refresh_images envC5 sC5).events = false ∧
    hasSend (refresh_images envC5 sC5).events = false :=
  C6_refresh_unchanged_no_deletes_or_sends envC5 sC5 "K5" recC5new
    (by decide) (by decide) (by decide)

/-- C2 (code bug): logout clears the user-data dictionary BEFORE the
cleanup pass, so with message ids 101 and 102 still delivered, neither the
logout button handler nor the /logout command issues a single transport
delete; the session is reset but the delivered messages are never removed,
contradicting the claimed cleanup-then-reset order. -/
theorem C2_logout_never_deletes :
    sC2.ud.image_message_ids = some [101, 102] ∧
    (end_session sC2).2 = [TEvent.editText Msg.loggedOut] ∧
    hasDelete (end_session sC2).2 = false ∧
    (end_session sC2).1.ud = emptyUD ∧
    (logout_command sC2).2 = [TEvent.sendText 50 Msg.loggedOut] ∧
    hasDelete (logout_command sC2).2 = false ∧
    (logout_command sC2).1.ud = emptyUD := by
  decide

/-- C5 counterexample: with a cached record (name A) and a fresh record
(name B) sharing the same image-link sequence, refresh returns Unchanged
yet replaces the whole cached record with the fresh one, refuting the
claim that `session.cachedRecord` is left unchanged. -/
theorem C5_counterexample :
    (refresh_images envC5 sC5).result = RefreshResult.unchanged ∧
    sC5.ud.user_data = some recC5old ∧
    (refresh_images envC5 sC5).st.ud.user_data = some recC5new ∧
    recC5new ≠ recC5old := by
  decide

/-- C5 (amended): when the fresh image-link sequence equals the cached one,
refresh returns Unchanged and leaves deliveredMessageIds and lastUpdated
alone, but `session.cachedRecord` is unconditionally replaced with the
fresh record (the update happens before the comparison), so only the
image-link field is guaranteed unchanged, not the whole record. -/
theorem C5_unchanged_still_replaces_cached (env : Env) (s : St)
    (k : String) (doc : Record)
    (hak : s.ud.activation_key = some k)
    (hst : env.store s.lookups k = some doc)
    (heq : doc.image_links = (s.ud.user_data.map Record.image_links).getD []) :
    (refresh_images env s).result = RefreshResult.unchanged ∧
    (refresh_images env s).st.ud.user_data = some doc ∧
    (refresh_images env s).st.ud.image_message_ids = s.ud.image_message_ids ∧
    (refresh_images env s).st.ud.last_updated = s.ud.last_updated := by
  rw [refresh_unchanged_eq env s k doc hak hst heq]
  simp

/-- C5 witness: the amended statement at the concrete unchanged refresh. -/
theorem C5_witness :
    (refresh_images envC5 sC5).result = RefreshResult.unchanged ∧
    (refresh_images envC5 sC5).st.ud.user_data = some recC5new ∧
    (refresh_images envC5 sC5).st.ud.image_message_ids =
      sC5.ud.image_message_ids ∧
    (refresh_images envC5 sC5).st.ud.last_updated = sC5.ud.last_updated :=
  C5_unchanged_still_replaces_cached envC5 sC5 "K5" recC5new
    (by decide) (by decide) (by decide)

/-- C9 counterexample: with a stored key that no longer resolves, both
deliver and refresh return KeyRevoked but leave the session dictionary
completely untouched (activation key and delivered ids still present),
refuting the part of the claim that says the session is cleared. -/
theorem C9_counterexample :
    (get_images envC9 sC9).result = DeliverResult.keyRevoked ∧
    (get_images envC9 sC9).st.ud = sC9.ud ∧
    (refresh_images envC9 sC9).result = RefreshResult.keyRevoked ∧
    (refresh_images envC9 sC9).st.ud = sC9.ud ∧
    sC9.ud.activation_key = some "K9" ∧
    sC9.ud.image_message_ids = some [7] ∧
    sC9.ud ≠ emptyUD := by
  decide

/-- C9 (amended): with a stored key that no longer resolves, deliver and
refresh always yield KeyRevoked, emit only the key-invalid edit (no
cleanup, no send, no image resolution), and leave the session to the
caller uncleared. -/
theorem C9_revoked_key_always_rejected (env : Env) (s : St) (k : String)
    (hak : s.ud.activation_key = some k)
    (hst : env.store s.lookups k = none) :
    (get_images env s).result = DeliverResult.keyRevoked ∧
    (get_images env s).events = [TEvent.editText Msg.keyNoLongerValid] ∧
    (get_images env s).st.ud = s.ud ∧
    (refresh_images env s).result = RefreshResult.keyRevoked ∧
    (refresh_images env s).events = [TEvent.editText Msg.keyNoLongerValid] ∧
    (refresh_images env s).st.ud = s.ud := by
  unfold get_images refresh_images
  simp [hak, hst]

/-- C9 witness: the amended statement at the concrete revoked-key state. -/
theorem C9_witness :
    (get_images envC9 sC9).result = DeliverResult.keyRevoked ∧
    (get_images envC9 sC9).events = [TEvent.editText Msg.keyNoLongerValid] ∧
    (get_images envC9 sC9).st.ud = sC9.ud ∧
    (refresh_images envC9 sC9).result = RefreshResult.keyRevoked ∧
    (refresh_images envC9 sC9).events =
      [TEvent.editText Msg.keyNoLongerValid] ∧
    (refresh_images envC9 sC9).st.ud = sC9.ud :=
  C9_revoked_key_always_rejected envC9 sC9 "K9" (by decide) (by decide)

/-- C3 counterexample: on a not-found key the handler stays in the waiting
state, but `activation_key` has been written with the stripped input even
though validation failed, refuting "does not set session.activationKey". -/
theorem C3_counterexample :
    (validate_key envC3 sC3 " BADKEY ").2.2 = ConvState.waitingForKey ∧
    sC3.ud.activation_key = none ∧
    (validate_key envC3 sC3 " BADKEY ").1.ud.activation_key =
      some "BADKEY" := by
  decide

/-- C3 (amended): for raw input whose stripped value is not in the store,
validate stays in the waiting state (retry prompt) and leaves the record,
name, delivered ids and timestamp untouched, but it DOES assign
`session.activationKey` the stripped input (the assignment happens before
the lookup, on every attempt). -/
theorem C3_invalid_key_still_sets_key (env : Env) (s : St) (raw : String)
    (hst : env.store s.lookups (pyStrip raw) = none) :
    (validate_key env s raw).2.2 = ConvState.waitingForKey ∧
    (validate_key env s raw).1.ud.activation_key = some (pyStrip raw) ∧
    (validate_key env s raw).1.ud.user_data = s.ud.user_data ∧
    (validate_key env s raw).1.ud.user_name = s.ud.user_name ∧
    (validate_key env s raw).1.ud.image_message_ids = s.ud.image_message_ids ∧
    (validate_key env s raw).1.ud.last_updated = s.ud.last_updated := by
  unfold validate_key
  simp [hst]

/-- C3 witness: the amended statement at the concrete failing input. -/
theorem C3_witness :
    (validate_key envC3 sC3 " BADKEY ").2.2 = ConvState.waitingForKey ∧
    (validate_key envC3 sC3 " BADKEY ").1.ud.activation_key =
      some (pyStrip " BADKEY ") ∧
    (validate_key envC3 sC3 " BADKEY ").1.ud.user_data = sC3.ud.user_data ∧
    (validate_key envC3 sC3 " BADKEY ").1.ud.user_name = sC3.ud.user_name ∧
    (validate_key envC3 sC3 " BADKEY ").1.ud.image_message_ids =
      sC3.ud.image_message_ids ∧
    (validate_key envC3 sC3 " BADKEY ").1.ud.last_updated =
      sC3.ud.last_updated :=
  C3_invalid_key_still_sets_key envC3 sC3 " BADKEY " (by decide)

/-- C4 counterexample: a successful deliver whose freshly fetched record
differs from the cached one leaves `session.cachedRecord` at the OLD cached
record and `lastUpdated` at its old value (fetch time was 5), refuting the
claim that deliver replaces the cached record and updates the timestamp. -/
theorem C4_counterexample :
    (get_images envC4 sC4).result = DeliverResult.delivered 1 0 ∧
    envC4.store sC4.lookups "K4" = some recC4new ∧
    (get_images envC4 sC4).st.ud.user_data = some recC4old ∧
    some recC4old ≠ (some recC4new : Option Record) ∧
    envC4.now = 5 ∧
    (get_images envC4 sC4).st.ud.last_updated = some 0 := by
  decide

/-- C4 (amended): after a successful deliver with a non-empty resolved set,
`deliveredMessageIds` equals the pending id list produced by the send loop,
but `cachedRecord` and `lastUpdated` are NOT written by deliver: both keep
their prior values (only validation writes them; refresh writes only the
cached record). -/
theorem C4_deliver_updates_only_ids (env : Env) (s : St) (k : String)
    (doc : Record)
    (hak : s.ud.activation_key = some k)
    (hst : env.store s.lookups k = some doc)
    (hne : resolveToday env.today doc.image_links ≠ []) :
    (get_images env s).result = DeliverResult.delivered
        (sendLoop env.fetchOk (resolveToday env.today doc.image_links).length
          (resolveToday env.today doc.image_links) 0 s.nextMsgId).sent
        (sendLoop env.fetchOk (resolveToday env.today doc.image_links).length
          (resolveToday env.today doc.image_links) 0 s.nextMsgId).errors ∧
    (get_images env s).st.ud.image_message_ids =
      some (sendLoop env.fetchOk
        (resolveToday env.today doc.image_links).length
        (resolveToday env.today doc.image_links) 0 s.nextMsgId).ids ∧
    (get_images env s).st.ud.user_data = s.ud.user_data ∧
    (get_images env s).st.ud.last_updated = s.ud.last_updated := by
  have h := get_images_delivered_eq env s k doc hak hst hne
  have hf := get_images_frame env s
  refine ⟨by rw [h], by rw [h], hf.1, hf.2.1⟩

/-- C4 witness: the amended statement evaluated at the concrete deliver. -/
theorem C4_witness :
    (get_images envC4 sC4).result = DeliverResult.delivered 1 0 ∧
    (get_images envC4 sC4).st.ud.image_message_ids = some [20] ∧
    (get_images envC4 sC4).st.ud.user_data = sC4.ud.user_data ∧
    (get_images envC4 sC4).st.ud.last_updated = sC4.ud.last_updated := by
  have h := C4_deliver_updates_only_ids envC4 sC4 "K4" recC4new
    (by decide) (by decide) (by decide)
  refine ⟨?_, ?_, h.2.2.1, h.2.2.2⟩
  · rw [h.1]; decide
  · rw [h.2.1]; decide

/-- C7: after a successful deliver with a non-empty resolved set of n urls,
the report counts fetch successes and failures (which sum to n) and
`deliveredMessageIds` holds exactly n consecutive message ids in resolved
order, one per item whether the item succeeded or got a substitute error
message. -/
theorem C7_one_id_per_resolved_item (env : Env) (s : St) (k : String)
    (doc : Record)
    (hak : s.ud.activation_key = some k)
    (hst : env.store s.lookups k = some doc)
    (hne : resolveToday env.today doc.image_links ≠ []) :
    (get_images env s).result = DeliverResult.delivered
        ((resolveToday env.today doc.image_links).filter env.fetchOk).length
        ((resolveToday env.today doc.image_links).filter
          fun u => !(env.fetchOk u)).length ∧
    (get_images env s).st.ud.image_message_ids =
      some (List.range' s.nextMsgId
        (resolveToday env.today doc.image_links).length) ∧
    ((resolveToday env.today doc.image_links).filter env.fetchOk).length +
        ((resolveToday env.today doc.image_links).filter
          fun u => !(env.fetchOk u)).length =
      (resolveToday env.today doc.image_links).length := by
  have h := get_images_delivered_eq env s k doc hak hst hne
  have h1 : (get_images env s).result = DeliverResult.delivered
      (sendLoop env.fetchOk (resolveToday env.today doc.image_links).length
        (resolveToday env.today doc.image_links) 0 s.nextMsgId).sent
      (sendLoop env.fetchOk (resolveToday env.today doc.image_links).length
        (resolveToday env.today doc.image_links) 0 s.nextMsgId).errors := by
    rw [h]
  have h2 : (get_images env s).st.ud.image_message_ids = some
      (sendLoop env.fetchOk (resolveToday env.today doc.image_links).length
        (resolveToday env.today doc.image_links) 0 s.nextMsgId).ids := by
    rw [h]
  rw [sendLoop_sent, sendLoop_errors] at h1
  rw [sendLoop_ids] at h2
  exact ⟨h1, h2, filter_bool_split_length env.fetchOk _⟩

/-- C7 witness: three resolved images with the second fetch failing give
DeliveryReport sent 2 errors 1 and exactly three ids in order. -/
theorem C7_witness :
    (get_images envC7 sC7).result = DeliverResult.delivered 2 1 ∧
    (get_images envC7 sC7).st.ud.image_message_ids = some [10, 11, 12] := by
  have h := C7_one_id_per_resolved_item envC7 sC7 "K7" recC7
    (by decide) (by decide) (by decide)
  refine ⟨?_, ?_⟩
  · rw [h.1]; decide
  · rw [h.2.1]; decide

/-- C1 counterexample: a refresh-with-change whose store answers the first
lookup with a record holding url a and the second lookup with a record
holding url b delivers the photo for b and not for a, and performs two
store lookups within the single refresh call: the delivery step re-fetches
instead of reusing the fresh record already fetched, refuting the claim. -/
theorem C1_counterexample :
    (refresh_images envC1 sC1).result =
      RefreshResult.changed (DeliverResult.delivered 1 0) ∧
    envC1.store 0 "K1" = some recC1first ∧
    envC1.store 1 "K1" = some recC1second ∧
    recC1first.image_links = [ImageEntry.str "a"] ∧
    recC1second.image_links = [ImageEntry.str "b"] ∧
    sC1.lookups = 0 ∧
    (refresh_images envC1 sC1).st.lookups = 2 ∧
    sendsPhotoUrl "b" (refresh_images envC1 sC1).events = true ∧
    sendsPhotoUrl "a" (refresh_images envC1 sC1).events = false := by
  decide

/-- C1 (amended): on a refresh whose fresh image-link sequence differs from
the cached one, `session.cachedRecord` is updated to the fresh record and
the full delivery routine is invoked, but that routine performs its own
record-store lookup instead of reusing the fresh record: the refresh call
itself performs exactly two lookups (the would-be forbidden extra fetch),
and the delivered content follows the record of the second lookup. -/
theorem C1_refresh_change_refetches (env : Env) (s : St) (k : String)
    (doc : Record)
    (hak : s.ud.activation_key = some k)
    (hst : env.store s.lookups k = some doc)
    (hne : doc.image_links ≠ (s.ud.user_data.map Record.image_links).getD []) :
    (refresh_images env s).st.ud.user_data = some doc ∧
    (refresh_images env s).st.lookups = s.lookups + 2 ∧
    ∃ r, (refresh_images env s).result = RefreshResult.changed r := by
  have h := refresh_changed_eq env s k doc hak hst hne
  set sIn : St := { s with
      ud := (clear_previous_images { s.ud with user_data := some doc }).1,
      lookups := s.lookups + 1 } with hsIn
  have hkIn : sIn.ud.activation_key = some k := by
    show (clear_previous_images
      { s.ud with user_data := some doc }).1.activation_key = some k
    rw [(cpi_fst_fields _).1]
    simpa using hak
  refine ⟨?_, ?_, ⟨(get_images env sIn).result, by rw [h]⟩⟩
  · rw [h]
    show (get_images env sIn).st.ud.user_data = some doc
    rw [(get_images_frame env sIn).1]
    show (clear_previous_images
      { s.ud with user_data := some doc }).1.user_data = some doc
    rw [(cpi_fst_fields _).2.2.2.1]
  · rw [h]
    show (get_images env sIn).st.lookups = s.lookups + 2
    rw [get_images_lookups_of_key env sIn k hkIn]

/-- C1 witness: the amended statement at the concrete changed refresh. -/
theorem C1_witness :
    (refresh_images envC1 sC1).st.ud.user_data = some recC1first ∧
    (refresh_images envC1 sC1).st.lookups = sC1.lookups + 2 := by
  have h := C1_refresh_change_refetches envC1 sC1 "K1" recC1first
    (by decide) (by decide) (by decide)
  exact ⟨h.1, h.2.1⟩

end TelegramBot
